import Mathlib

/-!
Formal model of the xrealmauthz KDC policy plugin
(src/plugins/kdcpolicy/xrealmauthz/main.c): cross-realm authorization
decisions for a Kerberos ticket-granting service.

Modelling conventions:
- Byte strings (krb5_data contents and C strings) are `List Nat`.
- `krb5_error_code` is `Int`, 0 meaning success.  A decision outcome pairs
  the returned code with the `*status_out` string; "allow" is code 0,
  policy denial is `KRB5KDC_ERR_POLICY`, other nonzero codes are
  propagated infrastructure errors.
- The KDB attribute store is an oracle (`Db`, `TgtEntry`); every call into
  it is recorded in a trace so that "no database access" properties are
  expressible.
- Allocation (asprintf/calloc) is modelled as always succeeding; the
  ENOMEM early exits are therefore not represented.
- printf-family `%s`/`%.*s` conversions stop at a NUL byte; `cstr` models
  that view.  Library routines that are not part of src/
  (krb5_realm_compare, krb5_unparse_name, krb5_unparse_name_flags) are
  modelled from the spec and marked as such.
-/

namespace Xrealmauthz

abbrev Bytes := List Nat

/-- Bytes of an ASCII string literal (every literal key/message text in the
plugin is ASCII). -/
def ascii (s : String) : Bytes := s.data.map Char.toNat

/-- C-string view of a byte sequence: everything up to the first NUL byte,
as the printf %s and %.*s conversions read their argument. -/
def cstr (b : Bytes) : Bytes := b.takeWhile (fun x => x != 0)

/-- No NUL byte occurs in the sequence, so its C-string view is itself. -/
def nulFree (b : Bytes) : Bool := b.all (fun x => x != 0)

/-- ATTR_PREFIX "xr:" (main.c line 44). -/
def attrPfx : Bytes := ascii "xr:"

/-- MAX_DENIAL_MSG_LEN (main.c line 45). -/
def MAX_DENIAL_MSG_LEN : Nat := 256

/-- The KRB5KDC_ERR_POLICY error code returned for an enforcing denial. -/
def KRB5KDC_ERR_POLICY : Int := -1765328372

/-- A Kerberos principal: name components plus a realm (krb5_principal). -/
structure Principal where
  components : List Bytes
  realm : Bytes
deriving DecidableEq

/-- krb5_realm_compare.  Modelled from the spec: classifying the trust path
compares the two principals' realms for exact byte equality (the library
routine is not part of src/). -/
def realm_compare (a b : Principal) : Bool := a.realm == b.realm

/-- krb5_unparse_name_flags with KRB5_PRINCIPAL_UNPARSE_NO_REALM.  Modelled
from the spec: the client's name components without the realm suffix,
joined by the '/' component separator (the library routine is not part of
src/). -/
def unparse_name_no_realm (p : Principal) : Bytes :=
  List.intercalate (ascii "/") p.components

/-- krb5_unparse_name.  Modelled from the spec: the fully-qualified
principal, name + "@" + realm (the library routine is not part of src/). -/
def unparse_name (p : Principal) : Bytes :=
  unparse_name_no_realm p ++ ascii "@" ++ p.realm

/-- struct realm_entry (main.c 47-50): a configured realm name with its
precomputed strlen. -/
structure RealmEntry where
  name : Bytes
  length : Nat
deriving DecidableEq

/-- struct xrealmauthz_data (main.c 52-56). -/
structure XrealmauthzData where
  enforcing : Bool
  allowed_realms : List RealmEntry
deriving DecidableEq

/-- A TGT database entry: krb5_dbe_get_string on a key yields a return
code and, on success, the optional attribute value (NULL when absent). -/
structure TgtEntry where
  getString : Bytes → Int × Option Bytes

/-- The principal database: krb5_db_get_principal yields a return code and
(on success) the entry. -/
structure Db where
  get_principal : Principal → Int × TgtEntry

/-- The fields of krb5_ticket the plugin reads: enc_part2->client and the
ticket server (the cross-realm TGT principal). -/
structure Ticket where
  client : Principal
  server : Principal

/-- The field of krb5_kdc_req the plugin reads: the requested service. -/
structure Request where
  server : Principal

/-- One call into the KDB layer. -/
inductive StoreOp where
  | fetchTgt (p : Principal)
  | readAttr (key : Bytes)
deriving DecidableEq

/-- Result of check_cross_realm_auth: the returned krb5_error_code and the
string left in *status_out. -/
structure Outcome where
  ret : Int
  status : Option Bytes
deriving DecidableEq

/-- is_realm_preapproved (main.c 168-183): NULL moddata or a NULL realm
list never matches; otherwise scan for an entry whose precomputed length
equals the client realm's length and whose bytes match it (strncmp over
that length; entry names are NUL-free C strings with length = strlen, so
the comparison is byte equality). -/
def is_realm_preapproved (data : Option XrealmauthzData)
    (client_realm : Bytes) : Bool :=
  match data with
  | none => false
  | some d =>
      d.allowed_realms.any (fun e =>
        e.length == client_realm.length && e.name == client_realm)

/-- check_cross_realm_tgt_attribute (main.c 186-204): returns the
krb5_dbe_get_string code, plus true iff the read succeeded and the value
was non-NULL. -/
def check_cross_realm_tgt_attribute (e : TgtEntry) (key : Bytes) :
    Int × Bool :=
  let r := e.getString key
  (r.1, r.1 == 0 && r.2.isSome)

/-- Realm-scope ACL key (main.c 232-234): asprintf "%s@%.*s" with
ATTR_PREFIX and the client realm. -/
def client_realm_acl (t : Ticket) : Bytes :=
  attrPfx ++ ascii "@" ++ cstr t.client.realm

/-- Principal-scope ACL key (main.c 252-278): bare unparsed name on direct
trust, fully-qualified unparsed name on transitive trust, each behind
ATTR_PREFIX. -/
def client_princ_acl (t : Ticket) : Bytes :=
  if realm_compare t.server t.client then
    attrPfx ++ cstr (unparse_name_no_realm t.client)
  else
    attrPfx ++ cstr (unparse_name t.client)

/-- snprintf(buf, cap, ...) keeps the first cap-1 bytes of the formatted
text (one byte is reserved for the terminating NUL). -/
def snprintf_trunc (cap : Nat) (s : Bytes) : Bytes := s.take (cap - 1)

/-- Status literal set on a failed TGT fetch (main.c 242). -/
def fetch_fail_msg : Bytes :=
  ascii "xrealmauthz plugin failed to retrieve cross-realm TGT from database"

/-- The enforcing denial message before truncation (main.c 310-313). -/
def denied_msg_full (t : Ticket) : Bytes :=
  ascii "xrealmauthz plugin denied from " ++ cstr t.server.realm

/-- The enforcing denial message as written into denial_msg by snprintf. -/
def denied_msg (t : Ticket) : Bytes :=
  snprintf_trunc MAX_DENIAL_MSG_LEN (denied_msg_full t)

/-- The audit-mode message before truncation (main.c 302-307). -/
def would_deny_msg_full (t : Ticket) (req : Request) : Bytes :=
  ascii "xrealmauthz plugin would deny " ++ cstr (unparse_name t.client) ++
  ascii " for " ++ cstr (unparse_name req.server) ++
  ascii " from " ++ cstr t.server.realm

/-- The audit-mode message as written into denial_msg by snprintf. -/
def would_deny_msg (t : Ticket) (req : Request) : Bytes :=
  snprintf_trunc MAX_DENIAL_MSG_LEN (would_deny_msg_full t req)

/-- check_cross_realm_auth (main.c 207-333), returning the outcome
together with the trace of KDB calls made.  Branch order follows the C:
pre-approval, TGT fetch, realm-scope attribute, principal-scope attribute,
then the enforcing/audit denial branch. -/
def check_cross_realm_auth (db : Db) (t : Ticket) (req : Request)
    (data : Option XrealmauthzData) : Outcome × List StoreOp :=
  let enforcing := match data with | some d => d.enforcing | none => true
  if is_realm_preapproved data t.client.realm then
    (⟨0, none⟩, [])
  else
    let fr := db.get_principal t.server
    if fr.1 == 0 then
      let c1 := check_cross_realm_tgt_attribute fr.2 (client_realm_acl t)
      if c1.1 == 0 then
        if c1.2 then
          (⟨0, none⟩, [.fetchTgt t.server, .readAttr (client_realm_acl t)])
        else
          let c2 := check_cross_realm_tgt_attribute fr.2 (client_princ_acl t)
          let tr : List StoreOp :=
            [.fetchTgt t.server, .readAttr (client_realm_acl t),
             .readAttr (client_princ_acl t)]
          if c2.1 == 0 then
            if c2.2 then
              (⟨0, none⟩, tr)
            else if enforcing then
              (⟨KRB5KDC_ERR_POLICY, some (denied_msg t)⟩, tr)
            else
              (⟨0, some (would_deny_msg t req)⟩, tr)
          else
            (⟨c2.1, none⟩, tr)
      else
        (⟨c1.1, none⟩, [.fetchTgt t.server, .readAttr (client_realm_acl t)])
    else
      (⟨fr.1, some fetch_fail_msg⟩, [.fetchTgt t.server])

/-- Result of the check_tgs entry point: the returned code, *status_out,
and the values written through the lifetime pointers (none models a NULL
pointer that is never written). -/
structure CheckOut where
  ret : Int
  status : Option Bytes
  lifetime : Option Int
  renew_lifetime : Option Int
deriving DecidableEq

/-- xrealmauthz_check (main.c 335-361): zero the lifetime outputs when
their pointers are non-NULL, short-circuit same-realm requests, otherwise
defer to check_cross_realm_auth. -/
def xrealmauthz_check (db : Db) (data : Option XrealmauthzData)
    (req : Request) (t : Ticket) (has_lifetime has_renew : Bool) :
    CheckOut × List StoreOp :=
  let lt : Option Int := if has_lifetime then some 0 else none
  let rlt : Option Int := if has_renew then some 0 else none
  if realm_compare req.server t.client then
    (⟨0, none, lt, rlt⟩, [])
  else
    let r := check_cross_realm_auth db t req data
    (⟨r.1.ret, r.1.status, lt, rlt⟩, r.2)

/-- One step of a UTF-8 byte-stream validator: the state is the number of
continuation bytes still expected. -/
def utf8Step (state : Nat) (b : Nat) : Option Nat :=
  if state = 0 then
    if b < 0x80 then some 0
    else if b < 0xC0 then none
    else if b < 0xE0 then some 1
    else if b < 0xF0 then some 2
    else if b < 0xF8 then some 3
    else none
  else if 0x80 ≤ b ∧ b < 0xC0 then some (state - 1)
  else none

/-- A byte sequence is shape-wise well-formed UTF-8: every multi-byte
sequence is complete (none is cut off at the end) and no stray
continuation byte occurs.  This formalises "well-formed (no partial
multi-byte sequence at the cut point)". -/
def utf8WellFormed (l : Bytes) : Bool :=
  (l.foldl (fun st b => st.bind (fun s => utf8Step s b)) (some 0)) == some 0

/- Concrete inputs used by witnesses and counterexamples. -/

def exClient : Principal := ⟨[ascii "alice"], ascii "R1"⟩

/-- Cross-realm TGT principal whose realm equals the client realm: a
direct hop. -/
def exServerD : Principal := ⟨[ascii "krbtgt", ascii "R2"], ascii "R1"⟩

/-- Cross-realm TGT principal presented from an intermediate realm R3: a
transitive path. -/
def exServerT : Principal := ⟨[ascii "krbtgt", ascii "R2"], ascii "R3"⟩

def exTicketD : Ticket := ⟨exClient, exServerD⟩

def exTicketT : Ticket := ⟨exClient, exServerT⟩

def exReq : Request := ⟨⟨[ascii "host", ascii "www"], ascii "R2"⟩⟩

/-- TGT entry carrying no string attributes at all. -/
def entryEmpty : TgtEntry := ⟨fun _ => (0, none)⟩

/-- TGT entry carrying exactly one string attribute. -/
def entryWith (k : Bytes) : TgtEntry :=
  ⟨fun q => if q = k then (0, some (ascii "ok")) else (0, none)⟩

/-- TGT entry whose attribute reads all fail with code 7. -/
def entryReadFail : TgtEntry := ⟨fun _ => (7, none)⟩

def dbOf (e : TgtEntry) : Db := ⟨fun _ => (0, e)⟩

/-- Database on which every principal fetch fails with code 5. -/
def dbFail : Db := ⟨fun _ => (5, entryEmpty)⟩

/-- Client whose single name component places a two-byte UTF-8 character
(0xC3 0xA9) across the snprintf truncation point of the audit message. -/
def longComp : Bytes := List.replicate 224 97 ++ [0xC3, 0xA9]

def cexClient : Principal := ⟨[longComp], ascii "R1"⟩

def cexTicket : Ticket := ⟨cexClient, exServerT⟩

/- Helper lemmas. -/

lemma cstr_eq_self {b : Bytes} (h : nulFree b = true) : cstr b = b := by
  unfold cstr
  exact List.takeWhile_eq_self_iff.mpr (by simpa [nulFree] using h)

lemma nulFree_append {a b : Bytes} (ha : nulFree a = true)
    (hb : nulFree b = true) : nulFree (a ++ b) = true := by
  simp only [nulFree, List.all_append, Bool.and_eq_true] at *
  exact ⟨ha, hb⟩

lemma nulFree_unparse {p : Principal}
    (hn : nulFree (unparse_name_no_realm p) = true)
    (hr : nulFree p.realm = true) : nulFree (unparse_name p) = true := by
  unfold unparse_name
  exact nulFree_append (nulFree_append hn (by decide)) hr

/-- Claim C2: a decide call whose client realm is in the configured
allowlist (exact byte-length-and-content match) returns allow immediately
with no status and performs zero attribute-store calls. -/
theorem preapproved_fast_path (db : Db) (t : Ticket) (req : Request)
    (d : XrealmauthzData) (e : RealmEntry)
    (hmem : e ∈ d.allowed_realms)
    (hname : e.name = t.client.realm)
    (hlen : e.length = e.name.length) :
    check_cross_realm_auth db t req (some d) = (⟨0, none⟩, []) := by
  have hpre : is_realm_preapproved (some d) t.client.realm = true := by
    simp only [is_realm_preapproved, List.any_eq_true]
    exact ⟨e, hmem, by simp [hname, hlen]⟩
  simp [check_cross_realm_auth, hpre]

theorem preapproved_fast_path_w :
    check_cross_realm_auth dbFail exTicketT exReq
      (some ⟨true, [⟨ascii "R1", 2⟩]⟩) = (⟨0, none⟩, []) :=
  preapproved_fast_path dbFail exTicketT exReq ⟨true, [⟨ascii "R1", 2⟩]⟩
    ⟨ascii "R1", 2⟩ (by decide) (by decide) (by decide)

/-- Claim C3: past pre-approval, the realm-scope key is exactly
"xr:@" + client realm; when that attribute is present the call allows with
no status, and the trace shows the realm-scope read is the only attribute
read, so the principal-scope key is never looked up. -/
theorem realm_scope_key_first_and_allow (db : Db) (t : Ticket)
    (req : Request) (data : Option XrealmauthzData) (v : Bytes)
    (hpre : is_realm_preapproved data t.client.realm = false)
    (hfetch : (db.get_principal t.server).1 = 0)
    (hnul : nulFree t.client.realm = true)
    (hpresent : (db.get_principal t.server).2.getString
        (client_realm_acl t) = (0, some v)) :
    client_realm_acl t = attrPfx ++ ascii "@" ++ t.client.realm
    ∧ check_cross_realm_auth db t req data =
        (⟨0, none⟩, [.fetchTgt t.server, .readAttr (client_realm_acl t)]) := by
  constructor
  · unfold client_realm_acl
    rw [cstr_eq_self hnul]
  · simp [check_cross_realm_auth, check_cross_realm_tgt_attribute,
      hpre, hfetch, hpresent]

theorem realm_scope_key_first_and_allow_w :
    client_realm_acl exTicketT = attrPfx ++ ascii "@" ++ exTicketT.client.realm
    ∧ check_cross_realm_auth (dbOf (entryWith (client_realm_acl exTicketT)))
        exTicketT exReq none =
        (⟨0, none⟩, [.fetchTgt exTicketT.server,
                     .readAttr (client_realm_acl exTicketT)]) :=
  realm_scope_key_first_and_allow _ _ exReq none (ascii "ok")
    (by decide) (by decide) (by decide) (by decide)

/-- Claim C9: with NULL module data the plugin behaves as enforcing with
an empty allowlist: pre-approval never succeeds and, when neither
attribute is present, the call is denied with the policy error. -/
theorem null_moddata_fail_closed (db : Db) (t : Ticket) (req : Request)
    (hfetch : (db.get_principal t.server).1 = 0)
    (hr : (db.get_principal t.server).2.getString
        (client_realm_acl t) = (0, none))
    (hp : (db.get_principal t.server).2.getString
        (client_princ_acl t) = (0, none)) :
    (∀ r : Bytes, is_realm_preapproved none r = false)
    ∧ (check_cross_realm_auth db t req none).1 =
        ⟨KRB5KDC_ERR_POLICY, some (denied_msg t)⟩ := by
  constructor
  · intro r; rfl
  · simp [check_cross_realm_auth, check_cross_realm_tgt_attribute,
      is_realm_preapproved, hfetch, hr, hp]

theorem null_moddata_fail_closed_w :
    (∀ r : Bytes, is_realm_preapproved none r = false)
    ∧ (check_cross_realm_auth (dbOf entryEmpty) exTicketT exReq none).1 =
        ⟨KRB5KDC_ERR_POLICY, some (denied_msg exTicketT)⟩ :=
  null_moddata_fail_closed (dbOf entryEmpty) exTicketT exReq
    (by decide) (by decide) (by decide)

/-- Claim C10: the check_tgs entry point zeroes the lifetime outputs
through any non-NULL pointer on every call, and short-circuits a request
whose requested-service realm equals the client realm: success, NULL
status, and no database access at all. -/
theorem check_tgs_same_realm_short_circuit (db : Db)
    (data : Option XrealmauthzData) (req : Request) (t : Ticket)
    (hl hrn : Bool) :
    (xrealmauthz_check db data req t hl hrn).1.lifetime =
        (if hl then some 0 else none)
    ∧ (xrealmauthz_check db data req t hl hrn).1.renew_lifetime =
        (if hrn then some 0 else none)
    ∧ (req.server.realm = t.client.realm →
        xrealmauthz_check db data req t hl hrn =
          (⟨0, none, if hl then some 0 else none,
            if hrn then some 0 else none⟩, [])) := by
  refine ⟨?_, ?_, ?_⟩
  · simp only [xrealmauthz_check]
    split <;> rfl
  · simp only [xrealmauthz_check]
    split <;> rfl
  · intro h
    unfold xrealmauthz_check realm_compare
    simp [h]

theorem check_tgs_same_realm_short_circuit_w :
    xrealmauthz_check dbFail none ⟨⟨[ascii "svc"], ascii "R1"⟩⟩ exTicketT
        true true = (⟨0, none, some 0, some 0⟩, []) :=
  (check_tgs_same_realm_short_circuit dbFail none
    ⟨⟨[ascii "svc"], ascii "R1"⟩⟩ exTicketT true true).2.2 (by decide)



/-- Claim C1: on reaching the principal-scope check, the derived key is
"xr:" + bare name on a direct hop (equal realms) and "xr:" + the
fully-qualified principal (name @ realm) on a transitive path; if that key
is present on the TGT entry the call allows with no status. -/
theorem principal_scope_key_and_allow (db : Db) (t : Ticket) (req : Request)
    (data : Option XrealmauthzData) (v : Bytes)
    (hpre : is_realm_preapproved data t.client.realm = false)
    (hfetch : (db.get_principal t.server).1 = 0)
    (hrAbsent : (db.get_principal t.server).2.getString
        (client_realm_acl t) = (0, none))
    (hname : nulFree (unparse_name_no_realm t.client) = true)
    (hrealm : nulFree t.client.realm = true)
    (hpresent : (db.get_principal t.server).2.getString
        (client_princ_acl t) = (0, some v)) :
    client_princ_acl t =
      (if t.server.realm = t.client.realm
       then attrPfx ++ unparse_name_no_realm t.client
       else attrPfx ++ unparse_name t.client)
    ∧ (check_cross_realm_auth db t req data).1 = ⟨0, none⟩ := by
  constructor
  · unfold client_princ_acl realm_compare
    rw [cstr_eq_self hname, cstr_eq_self (nulFree_unparse hname hrealm)]
    by_cases h : t.server.realm = t.client.realm <;> simp [h]
  · simp [check_cross_realm_auth, check_cross_realm_tgt_attribute,
      hpre, hfetch, hrAbsent, hpresent]

theorem principal_scope_key_and_allow_w :
    client_princ_acl exTicketD =
      (if exTicketD.server.realm = exTicketD.client.realm
       then attrPfx ++ unparse_name_no_realm exTicketD.client
       else attrPfx ++ unparse_name exTicketD.client)
    ∧ (check_cross_realm_auth (dbOf (entryWith (client_princ_acl exTicketD)))
        exTicketD exReq none).1 = ⟨0, none⟩ :=
  principal_scope_key_and_allow _ _ exReq none (ascii "ok")
    (by decide) (by decide) (by decide) (by decide) (by decide) (by decide)

/-- snprintf output never reaches the buffer capacity. -/
lemma snprintf_len (cap : Nat) (s : Bytes) :
    (snprintf_trunc cap s).length ≤ cap - 1 := by
  unfold snprintf_trunc
  simp [List.length_take]

/-- Claim C4: with neither attribute present and enforcing on, the call
returns the policy error with status exactly
"xrealmauthz plugin denied from " + server realm (which mentions no client
name component). -/
theorem enforcing_denial_exact (db : Db) (t : Ticket) (req : Request)
    (d : XrealmauthzData)
    (hpre : is_realm_preapproved (some d) t.client.realm = false)
    (hfetch : (db.get_principal t.server).1 = 0)
    (hr : (db.get_principal t.server).2.getString
        (client_realm_acl t) = (0, none))
    (hp : (db.get_principal t.server).2.getString
        (client_princ_acl t) = (0, none))
    (henf : d.enforcing = true)
    (hnul : nulFree t.server.realm = true)
    (hlen : t.server.realm.length ≤ 224) :
    (check_cross_realm_auth db t req (some d)).1 =
      ⟨KRB5KDC_ERR_POLICY,
       some (ascii "xrealmauthz plugin denied from " ++ t.server.realm)⟩ := by
  have hmsg : denied_msg t =
      ascii "xrealmauthz plugin denied from " ++ t.server.realm := by
    unfold denied_msg denied_msg_full snprintf_trunc
    rw [cstr_eq_self hnul]
    apply List.take_of_length_le
    have h31 : (ascii "xrealmauthz plugin denied from ").length = 31 := by
      decide
    simp [List.length_append, h31, MAX_DENIAL_MSG_LEN]
    omega
  simp [check_cross_realm_auth, check_cross_realm_tgt_attribute,
    hpre, hfetch, hr, hp, henf, hmsg]

theorem enforcing_denial_exact_w :
    (check_cross_realm_auth (dbOf entryEmpty) exTicketT exReq
        (some ⟨true, []⟩)).1 =
      ⟨KRB5KDC_ERR_POLICY,
       some (ascii "xrealmauthz plugin denied from " ++
             exTicketT.server.realm)⟩ :=
  enforcing_denial_exact (dbOf entryEmpty) exTicketT exReq ⟨true, []⟩
    (by decide) (by decide) (by decide) (by decide) (by decide) (by decide)
    (by decide)

/-- Claim C5: with neither attribute present and enforcing off, the call
succeeds (code 0) with the would-deny status naming the fully-qualified
client, the fully-qualified requested service, and the ticket server
realm. -/
theorem audit_would_deny_exact (db : Db) (t : Ticket) (req : Request)
    (d : XrealmauthzData)
    (hpre : is_realm_preapproved (some d) t.client.realm = false)
    (hfetch : (db.get_principal t.server).1 = 0)
    (hr : (db.get_principal t.server).2.getString
        (client_realm_acl t) = (0, none))
    (hp : (db.get_principal t.server).2.getString
        (client_princ_acl t) = (0, none))
    (henf : d.enforcing = false)
    (hnc : nulFree (unparse_name_no_realm t.client) = true)
    (hncr : nulFree t.client.realm = true)
    (hns : nulFree (unparse_name_no_realm req.server) = true)
    (hnsr : nulFree req.server.realm = true)
    (hnr : nulFree t.server.realm = true)
    (hlen : 41 + (unparse_name t.client).length +
        (unparse_name req.server).length + t.server.realm.length ≤ 255) :
    (check_cross_realm_auth db t req (some d)).1 =
      ⟨0, some (ascii "xrealmauthz plugin would deny " ++
                unparse_name t.client ++ ascii " for " ++
                unparse_name req.server ++ ascii " from " ++
                t.server.realm)⟩ := by
  have hmsg : would_deny_msg t req =
      ascii "xrealmauthz plugin would deny " ++ unparse_name t.client ++
      ascii " for " ++ unparse_name req.server ++ ascii " from " ++
      t.server.realm := by
    unfold would_deny_msg would_deny_msg_full snprintf_trunc
    rw [cstr_eq_self (nulFree_unparse hnc hncr),
        cstr_eq_self (nulFree_unparse hns hnsr), cstr_eq_self hnr]
    apply List.take_of_length_le
    have h30 : (ascii "xrealmauthz plugin would deny ").length = 30 := by
      decide
    have h5 : (ascii " for ").length = 5 := by decide
    have h6 : (ascii " from ").length = 6 := by decide
    simp [List.length_append, h30, h5, h6, MAX_DENIAL_MSG_LEN]
    omega
  simp [check_cross_realm_auth, check_cross_realm_tgt_attribute,
    hpre, hfetch, hr, hp, henf, hmsg]

theorem audit_would_deny_exact_w :
    (check_cross_realm_auth (dbOf entryEmpty) exTicketT exReq
        (some ⟨false, []⟩)).1 =
      ⟨0, some (ascii "xrealmauthz plugin would deny " ++
                unparse_name exTicketT.client ++ ascii " for " ++
                unparse_name exReq.server ++ ascii " from " ++
                exTicketT.server.realm)⟩ :=
  audit_would_deny_exact (dbOf entryEmpty) exTicketT exReq ⟨false, []⟩
    (by decide) (by decide) (by decide) (by decide) (by decide) (by decide)
    (by decide) (by decide) (by decide) (by decide) (by decide)

/-- The truncated enforcing denial message always starts with the denial
text, whose twentieth byte already differs from the fetch-failure text. -/
lemma denied_msg_take20 (t : Ticket) :
    (denied_msg t).take 20 = ascii "xrealmauthz plugin d" := by
  unfold denied_msg denied_msg_full snprintf_trunc
  rw [List.take_take]
  rw [(by decide : min 20 (MAX_DENIAL_MSG_LEN - 1) = 20)]
  rw [List.take_append_of_le_length (by decide)]
  decide

lemma fetch_fail_ne_denied (t : Ticket) : fetch_fail_msg ≠ denied_msg t := by
  intro h
  have h20 := congrArg (List.take 20) h
  rw [denied_msg_take20] at h20
  exact absurd h20 (by decide)

/-- Claim C6: a failed TGT fetch aborts with the fetch error code and the
retrieval-failure status (not the denial status) and performs no attribute
reads; a failed attribute read aborts with that read's error code and a
NULL status.  No failure is converted into code 0 or into the policy-deny
outcome. -/
theorem store_failure_aborts (db : Db) (t : Ticket) (req : Request)
    (data : Option XrealmauthzData)
    (hpre : is_realm_preapproved data t.client.realm = false) :
    ((db.get_principal t.server).1 ≠ 0 →
       check_cross_realm_auth db t req data =
         (⟨(db.get_principal t.server).1, some fetch_fail_msg⟩,
          [.fetchTgt t.server])
       ∧ fetch_fail_msg ≠ denied_msg t)
    ∧ ((db.get_principal t.server).1 = 0 →
       ((db.get_principal t.server).2.getString (client_realm_acl t)).1 ≠ 0 →
       (check_cross_realm_auth db t req data).1 =
         ⟨((db.get_principal t.server).2.getString (client_realm_acl t)).1,
          none⟩)
    ∧ ((db.get_principal t.server).1 = 0 →
       (db.get_principal t.server).2.getString (client_realm_acl t) =
         (0, none) →
       ((db.get_principal t.server).2.getString (client_princ_acl t)).1 ≠ 0 →
       (check_cross_realm_auth db t req data).1 =
         ⟨((db.get_principal t.server).2.getString (client_princ_acl t)).1,
          none⟩) := by
  refine ⟨?_, ?_, ?_⟩
  · intro h
    refine ⟨?_, fetch_fail_ne_denied t⟩
    simp [check_cross_realm_auth, hpre, h]
  · intro h0 h1
    simp [check_cross_realm_auth, check_cross_realm_tgt_attribute,
      hpre, h0, h1]
  · intro h0 hr h1
    simp [check_cross_realm_auth, check_cross_realm_tgt_attribute,
      hpre, h0, hr, h1]

theorem store_failure_aborts_w :
    (check_cross_realm_auth dbFail exTicketT exReq none =
       (⟨5, some fetch_fail_msg⟩, [.fetchTgt exTicketT.server])
     ∧ fetch_fail_msg ≠ denied_msg exTicketT)
    ∧ (check_cross_realm_auth (dbOf entryReadFail) exTicketT exReq none).1 =
        ⟨7, none⟩ :=
  ⟨(store_failure_aborts dbFail exTicketT exReq none (by decide)).1
     (by decide),
   (store_failure_aborts (dbOf entryReadFail) exTicketT exReq none
     (by decide)).2.1 (by decide) (by decide)⟩

/-- Every status the decision can leave behind is one of NULL, the
fetch-failure literal, the truncated denial message, or the truncated
would-deny message. -/
lemma status_cases (db : Db) (t : Ticket) (req : Request)
    (data : Option XrealmauthzData) :
    (check_cross_realm_auth db t req data).1.status = none
    ∨ (check_cross_realm_auth db t req data).1.status = some fetch_fail_msg
    ∨ (check_cross_realm_auth db t req data).1.status = some (denied_msg t)
    ∨ (check_cross_realm_auth db t req data).1.status =
        some (would_deny_msg t req) := by
  simp only [check_cross_realm_auth]
  split
  · simp
  · split
    · split
      · split
        · simp
        · split
          · split
            · simp
            · split <;> simp
          · simp
      · simp
    · simp

/-- Claim C7 (amended): every status string the decision produces holds
at most 255 content bytes (256 with the terminating NUL); on the
deny/would-deny branch the status is exactly the first 255 bytes of the
formatted message - truncation at byte granularity - and truncation raises
no error: the returned code is still 0 (audit) or the policy error
(enforcing). -/
theorem status_truncated_within_cap (db : Db) (t : Ticket) (req : Request)
    (d : XrealmauthzData)
    (hpre : is_realm_preapproved (some d) t.client.realm = false)
    (hfetch : (db.get_principal t.server).1 = 0)
    (hr : (db.get_principal t.server).2.getString
        (client_realm_acl t) = (0, none))
    (hp : (db.get_principal t.server).2.getString
        (client_princ_acl t) = (0, none)) :
    (∀ (db2 : Db) (t2 : Ticket) (req2 : Request)
       (data2 : Option XrealmauthzData) (m : Bytes),
       (check_cross_realm_auth db2 t2 req2 data2).1.status = some m →
       m.length < MAX_DENIAL_MSG_LEN)
    ∧ (d.enforcing = false →
       (check_cross_realm_auth db t req (some d)).1 =
         ⟨0, some ((would_deny_msg_full t req).take
                    (MAX_DENIAL_MSG_LEN - 1))⟩)
    ∧ (d.enforcing = true →
       (check_cross_realm_auth db t req (some d)).1 =
         ⟨KRB5KDC_ERR_POLICY,
          some ((denied_msg_full t).take (MAX_DENIAL_MSG_LEN - 1))⟩) := by
  refine ⟨?_, ?_, ?_⟩
  · intro db2 t2 req2 data2 m h
    rcases status_cases db2 t2 req2 data2 with h0 | h1 | h1 | h1
    · rw [h0] at h; cases h
    · rw [h1] at h
      injection h with h2
      rw [← h2]
      decide
    · rw [h1] at h
      injection h with h2
      rw [← h2]
      have := snprintf_len MAX_DENIAL_MSG_LEN (denied_msg_full t2)
      unfold denied_msg
      simp [MAX_DENIAL_MSG_LEN] at *
      omega
    · rw [h1] at h
      injection h with h2
      rw [← h2]
      have := snprintf_len MAX_DENIAL_MSG_LEN (would_deny_msg_full t2 req2)
      unfold would_deny_msg
      simp [MAX_DENIAL_MSG_LEN] at *
      omega
  · intro henf
    simp [check_cross_realm_auth, check_cross_realm_tgt_attribute,
      hpre, hfetch, hr, hp, henf, would_deny_msg, snprintf_trunc]
  · intro henf
    simp [check_cross_realm_auth, check_cross_realm_tgt_attribute,
      hpre, hfetch, hr, hp, henf, denied_msg, snprintf_trunc]

theorem status_truncated_within_cap_w :
    (denied_msg exTicketT).length < MAX_DENIAL_MSG_LEN
    ∧ (check_cross_realm_auth (dbOf entryEmpty) exTicketT exReq
        (some ⟨true, []⟩)).1 =
        ⟨KRB5KDC_ERR_POLICY,
         some ((denied_msg_full exTicketT).take (MAX_DENIAL_MSG_LEN - 1))⟩ := by
  have h := status_truncated_within_cap (dbOf entryEmpty) exTicketT exReq
    ⟨true, []⟩ (by decide) (by decide) (by decide) (by decide)
  exact ⟨h.1 (dbOf entryEmpty) exTicketT exReq none (denied_msg exTicketT)
           (by decide),
         h.2.2 rfl⟩

set_option maxRecDepth 10000 in
/-- Claim C7 counterexample: an audit message longer than the cap is cut
at byte 255 even when that byte falls inside a two-byte UTF-8 character,
so the truncated status is not well-formed although the untruncated
message is. -/
theorem trunc_multibyte_cex :
    (check_cross_realm_auth (dbOf entryEmpty) cexTicket exReq
        (some ⟨false, []⟩)).1.status = some (would_deny_msg cexTicket exReq)
    ∧ (check_cross_realm_auth (dbOf entryEmpty) cexTicket exReq
        (some ⟨false, []⟩)).1.ret = 0
    ∧ (would_deny_msg cexTicket exReq).length = 255
    ∧ utf8WellFormed (would_deny_msg_full cexTicket exReq) = true
    ∧ utf8WellFormed (would_deny_msg cexTicket exReq) = false := by
  exact ⟨by decide, by decide, by decide, by decide, by decide⟩

end Xrealmauthz
